import Mathlib

/-!
Verification of the AgentPress thread & tool-orchestration engine.

This file gives a shallow embedding, in Lean 4, of the conversation-log
operations of `agentpress/thread_manager.py` and of the container tools in
`tools/bash_tool.py` and `tools/repo_tool.py`, and proves (or refutes)
the documented properties of those operations.

Modelling conventions:
* a Python message dict becomes the `Message` structure; an absent
  `tool_calls` / `tool_call_id` / `name` key becomes `none`;
* the two JSON files of a thread (active log and history log) become the
  two fields of `ThreadState`; every file write is modelled as producing
  the corresponding new state;
* external effects (the LLM transport, the docker subprocess, the
  response processor, which live outside the analysed sources) are passed
  in as explicit parameters, so every function stays executable;
* I/O faults (unreadable thread file, broken pipe) are outside the model:
  each embedded operation models the run of the source in which its file
  reads and writes succeed.
-/

namespace AgentPress

/-! ## Data model (`thread_manager.py`, spec section 3) -/

/-- The function slot of one tool-call request: `tool_call['function']`. -/
structure ToolCallFunction where
  name : String
deriving DecidableEq

/-- One tool-call request carried by an assistant message:
`{id, function: {name, ...}}`. -/
structure ToolCall where
  id : String
  function : ToolCallFunction
deriving DecidableEq

/-- A conversation message.  `tool_calls = none` models a dict without the
`tool_calls` key (the code tests `'tool_calls' in msg`); likewise for
`tool_call_id` and `name`. -/
structure Message where
  role : String
  content : String
  tool_calls : Option (List ToolCall)
  tool_call_id : Option String
  name : Option String
deriving DecidableEq

/-- The durable state of one thread: the active log
(`{thread_id}.json`) and the history log (`{thread_id}_history.json`). -/
structure ThreadState where
  active : List Message
  history : List Message
deriving DecidableEq

/-- `create_thread`: both files start with empty message lists. -/
def emptyThread : ThreadState := ⟨[], []⟩

/-! ## `list_messages` -/

/-- The canonical role set used by the `regular_list` filter. -/
def regularRoles : List String := ["system", "assistant", "tool", "user"]

/-- The dict comprehension `{k: v for k, v in msg.items() if k != 'tool_calls'}`:
drop the `tool_calls` key, keep everything else. -/
def stripToolCalls (m : Message) : Message :=
  { m with tool_calls := none }

/-- `ThreadManager.list_messages(thread_id, hide_tool_msgs,
only_latest_assistant, regular_list)` applied to the active log.
Mirrors the source: the `only_latest_assistant` branch returns at once;
otherwise the `hide_tool_msgs` comprehension runs, then the
`regular_list` filter. -/
def listMessages (msgs : List Message) (hide_tool_msgs : Bool)
    (only_latest_assistant : Bool) (regular_list : Bool) : List Message :=
  if only_latest_assistant then
    match msgs.reverse.find? (fun m => m.role == "assistant") with
    | some m => [m]
    | none => []
  else
    let filtered :=
      if hide_tool_msgs then
        (msgs.filter (fun m => m.role != "tool")).map stripToolCalls
      else msgs
    let filtered :=
      if regular_list then
        filtered.filter (fun m => regularRoles.contains m.role)
      else filtered
    filtered

/-! ## Incomplete-tool-call repair (`cleanup_incomplete_tool_calls`) -/

/-- `m['role'] == 'assistant' and 'tool_calls' in m`. -/
def isToolCallAssistant (m : Message) : Bool :=
  m.role == "assistant" && m.tool_calls.isSome

/-- The synthesized failure message spliced in for one unanswered
tool-call request. -/
def failedToolResult (tc : ToolCall) : Message :=
  { role := "tool"
    content := "ToolResult(success=False, output='Execution interrupted. Session was stopped.')"
    tool_calls := none
    tool_call_id := some tc.id
    name := some tc.function.name }

/-- `ThreadManager.cleanup_incomplete_tool_calls`.  It reads the thread
through `list_messages` (so through the default `regular_list` filter),
locates the most recent assistant message carrying `tool_calls` by
scanning `reversed(messages)`, then recovers its position with Python's
`messages.index(...)`, which yields the FIRST list entry equal to that
message.  If the number of `tool_calls` differs from the number of
tool-role messages after that position, failure results for the
unanswered suffix of the requests are spliced in right after it and the
active log is rewritten.  Returns the new state and the reported
"cleanup was performed" flag. -/
def cleanupIncompleteToolCalls (st : ThreadState) : ThreadState × Bool :=
  let messages := listMessages st.active false false true
  match messages.reverse.find? isToolCallAssistant with
  | none => (st, false)
  | some last =>
    let tool_calls := last.tool_calls.getD []
    let assistant_index := messages.indexOf last
    let tool_responses :=
      (messages.drop (assistant_index + 1)).filter (fun m => m.role == "tool")
    if tool_calls.length == tool_responses.length then (st, false)
    else
      let failed := (tool_calls.drop tool_responses.length).map failedToolResult
      let repaired :=
        messages.take (assistant_index + 1) ++ failed ++
          messages.drop (assistant_index + 1)
      ({ st with active := repaired }, true)

/-! ## `add_message` -/

/-- The index scan of `add_message`:
`next((i for i in reversed(range(len(messages))) if messages[i]['role'] ==
'assistant' and 'tool_calls' in messages[i]), None)`. -/
def lastToolCallAssistantIdx (msgs : List Message) : Option Nat :=
  (List.range msgs.length).reverse.find? (fun i =>
    match msgs.get? i with
    | some m => isToolCallAssistant m
    | none => false)

/-- `ThreadManager.add_message(thread_id, message_data)` (no image
attachments passed; the `images` branch and the ToolResult-to-string
coercion act only on dynamically typed payloads outside this model).
Mirrors the source faithfully, including its use of the in-memory
`messages` list that was read BEFORE `cleanup_incomplete_tool_calls`
rewrote the thread file: the final write stores that stale list plus the
new message, and the history file (reread after the cleanup, which never
touches it) gains the new message as well. -/
def addMessage (st : ThreadState) (message_data : Message) : ThreadState :=
  let messages := st.active
  let afterCleanup :=
    if message_data.role == "user" then
      match lastToolCallAssistantIdx messages with
      | some i =>
        match messages.get? i with
        | some a =>
          let tool_call_count := (a.tool_calls.getD []).length
          let tool_response_count :=
            ((messages.drop (i + 1)).filter (fun m => m.role == "tool")).length
          if tool_call_count != tool_response_count then
            (cleanupIncompleteToolCalls st).1
          else st
        | none => st
      | none => st
    else st
  { active := messages ++ [message_data]
    history := afterCleanup.history ++ [message_data] }

/-! ## `reset_messages`, `modify_message`, `remove_message` -/

/-- `ThreadManager.reset_messages`: rewrite the active log as empty,
leave the history file alone. -/
def resetMessages (st : ThreadState) : ThreadState :=
  { st with active := [] }

/-- `ThreadManager.modify_message(thread_id, message_index, new_message)`.
The index is a Python int, so it may be negative; the source replaces the
entry and rewrites the file only when `0 <= message_index <
len(messages)`, and otherwise only logs an error and returns normally. -/
def modifyMessage (st : ThreadState) (message_index : Int)
    (new_message : Message) : ThreadState :=
  if 0 ≤ message_index ∧ message_index < (st.active.length : Int) then
    { st with active := st.active.set message_index.toNat new_message }
  else st

/-- `ThreadManager.remove_message(thread_id, message_index)`: same guard,
`messages.pop(message_index)` on the in-range branch. -/
def removeMessage (st : ThreadState) (message_index : Int) : ThreadState :=
  if 0 ≤ message_index ∧ message_index < (st.active.length : Int) then
    { st with active := st.active.eraseIdx message_index.toNat }
  else st

/-! ## Operation sequences over one thread

`ThreadOp` packages the mutating thread-store operations the invariants
quantify over; `runOps` runs a sequence from a starting state. -/

inductive ThreadOp where
  | add (message_data : Message) : ThreadOp
  | repair : ThreadOp
  | reset : ThreadOp
deriving DecidableEq

def applyOp (st : ThreadState) : ThreadOp → ThreadState
  | .add m => addMessage st m
  | .repair => (cleanupIncompleteToolCalls st).1
  | .reset => resetMessages st

def runOps (st : ThreadState) (ops : List ThreadOp) : ThreadState :=
  ops.foldl applyOp st

/-! ## Concrete fixtures used by the concrete theorems -/

/-- A tool-call request, as an assistant message carries it. -/
def exToolCall : ToolCall := ⟨"call_1", ⟨"bash_command"⟩⟩

/-- An assistant message requesting one tool call. -/
def exAssistant : Message := ⟨"assistant", "running a command", some [exToolCall], none, none⟩

/-- A tool-role message answering `exToolCall`. -/
def exToolMsg : Message := ⟨"tool", "done", none, some "call_1", some "bash_command"⟩

/-- A plain user message. -/
def exUser : Message := ⟨"user", "hi", none, none, none⟩

/-! ## Basic lemmas about the operations -/

/-- The repair never writes the history file. -/
theorem cleanup_history_eq (st : ThreadState) :
    (cleanupIncompleteToolCalls st).1.history = st.history := by
  unfold cleanupIncompleteToolCalls
  dsimp only
  split
  · rfl
  · split
    · rfl
    · rfl

/-- `add_message` appends the new message to the active log it read
before the cleanup ran (the source's final write uses that stale list). -/
theorem addMessage_active (st : ThreadState) (m : Message) :
    (addMessage st m).active = st.active ++ [m] := rfl

/-- `add_message` appends the new message to the history log. -/
theorem addMessage_history (st : ThreadState) (m : Message) :
    (addMessage st m).history = st.history ++ [m] := by
  unfold addMessage
  dsimp only
  split
  · split
    · split
      · split
        · rw [cleanup_history_eq]
        · rfl
      · rfl
    · rfl
  · rfl

/-- C1, the code run at the failing input: the active log starts as one
assistant message with one tool-call request and no tool answer; a user
message is appended.  The repair would splice in the synthesized failure
message (third conjunct), and `add_message` does invoke it, but its final
write stores the stale pre-repair list plus the user message, so the
resulting active log holds no tool-role message at all. -/
theorem addMessage_user_overwrites_repair :
    (addMessage ⟨[exAssistant], [exAssistant]⟩ exUser).active
        = [exAssistant, exUser] ∧
      (addMessage ⟨[exAssistant], [exAssistant]⟩ exUser).active.filter
          (fun m => m.role == "tool") = [] ∧
      (cleanupIncompleteToolCalls ⟨[exAssistant], [exAssistant]⟩).1.active
        = [exAssistant, failedToolResult exToolCall] := by
  exact ⟨rfl, rfl, rfl⟩

/-- C2, counterexample: run the incomplete-tool-call repair on a thread
whose active and history logs both hold one assistant message with an
unanswered tool-call request.  The repair splices the synthesized
failure message into the active log only, so afterwards the active log
is no longer a subset of the history log. -/
theorem cleanup_breaks_history_superset :
    ¬ (∀ m ∈ (cleanupIncompleteToolCalls ⟨[exAssistant], [exAssistant]⟩).1.active,
        m ∈ (cleanupIncompleteToolCalls ⟨[exAssistant], [exAssistant]⟩).1.history) := by
  decide

/-- Step lemma: every operation other than the repair preserves
"every active message is also in history". -/
theorem applyOp_superset {st : ThreadState} {op : ThreadOp}
    (hop : op ≠ ThreadOp.repair)
    (h : ∀ m ∈ st.active, m ∈ st.history) :
    ∀ m ∈ (applyOp st op).active, m ∈ (applyOp st op).history := by
  cases op with
  | add m' =>
    intro m hm
    rw [applyOp, addMessage_active] at hm
    rw [applyOp, addMessage_history]
    rcases List.mem_append.mp hm with h1 | h1
    · exact List.mem_append.mpr (Or.inl (h m h1))
    · exact List.mem_append.mpr (Or.inr h1)
  | repair => exact absurd rfl hop
  | reset => intro m hm; exact absurd hm (List.not_mem_nil m)

/-- C2, amended: (a) no thread-store operation ever truncates the
history log — the previous history log is a prefix of the new one; and
(b) along any sequence of create / add-message / reset operations (no
standalone repair), every message in the active log also appears in the
history log. -/
theorem history_superset_without_repair :
    (∀ (st : ThreadState) (op : ThreadOp), st.history <+: (applyOp st op).history) ∧
      (∀ ops : List ThreadOp, (∀ op ∈ ops, op ≠ ThreadOp.repair) →
        ∀ m ∈ (runOps emptyThread ops).active, m ∈ (runOps emptyThread ops).history) := by
  constructor
  · intro st op
    cases op with
    | add m => rw [applyOp, addMessage_history]; exact List.prefix_append _ _
    | repair => rw [applyOp, cleanup_history_eq]
    | reset => exact List.prefix_refl _
  · have main : ∀ (ops : List ThreadOp) (st : ThreadState),
        (∀ op ∈ ops, op ≠ ThreadOp.repair) →
        (∀ m ∈ st.active, m ∈ st.history) →
        ∀ m ∈ (runOps st ops).active, m ∈ (runOps st ops).history := by
      intro ops
      induction ops with
      | nil => intro st _ h; exact h
      | cons op rest ih =>
        intro st hops h
        have hstep := applyOp_superset (hops op (List.mem_cons_self op rest)) h
        exact ih (applyOp st op) (fun o ho => hops o (List.mem_cons_of_mem op ho)) hstep
    intro ops hops
    exact main ops emptyThread hops (by intro m hm; exact absurd hm (List.not_mem_nil m))

/-- Witness for the amended C2 theorem at concrete inputs. -/
theorem history_superset_without_repair_witness :
    emptyThread.history <+: (applyOp emptyThread (ThreadOp.add exUser)).history ∧
      ∀ m ∈ (runOps emptyThread [ThreadOp.add exAssistant, ThreadOp.reset,
          ThreadOp.add exUser]).active,
        m ∈ (runOps emptyThread [ThreadOp.add exAssistant, ThreadOp.reset,
          ThreadOp.add exUser]).history :=
  ⟨history_superset_without_repair.1 emptyThread (ThreadOp.add exUser),
    history_superset_without_repair.2
      [ThreadOp.add exAssistant, ThreadOp.reset, ThreadOp.add exUser] (by decide)⟩

/-! ## The presentation view (C3) -/

/-- Spec-side view, following the claim's words: drop every tool-role
message, strip `tool_calls` from the remaining assistant messages, keep
every other message unchanged, in order. -/
def hideToolView (msgs : List Message) : List Message :=
  msgs.filterMap (fun m =>
    if m.role = "tool" then none
    else if m.role = "assistant" then some (stripToolCalls m)
    else some m)

/-- Stripping `tool_calls` from a message that carries none is the
identity. -/
theorem stripToolCalls_eq_self {m : Message} (h : m.tool_calls = none) :
    stripToolCalls m = m := by
  cases m
  simp only [stripToolCalls]
  simp_all

/-- C3: on a thread whose messages fit the data model (canonical roles,
`tool_calls` only on assistant messages), `list_messages` with
`hide_tool_msgs=true` (and the other filters at their defaults) returns
exactly the presentation view of the claim: tool-role messages removed,
`tool_calls` stripped from the remaining assistant messages, everything
else unchanged and in order. -/
theorem listMessages_hideToolMsgs_view (msgs : List Message)
    (hroles : ∀ m ∈ msgs, m.role ∈ regularRoles)
    (hcalls : ∀ m ∈ msgs, m.role ≠ "assistant" → m.tool_calls = none) :
    listMessages msgs true false true = hideToolView msgs := by
  induction msgs with
  | nil => rfl
  | cons m rest ih =>
    have hr : m.role ∈ regularRoles := hroles m (List.mem_cons_self m rest)
    have ihr : listMessages rest true false true = hideToolView rest :=
      ih (fun x hx => hroles x (List.mem_cons_of_mem m hx))
        (fun x hx => hcalls x (List.mem_cons_of_mem m hx))
    by_cases htool : m.role = "tool"
    · simpa [listMessages, hideToolView, htool] using ihr
    · by_cases hassist : m.role = "assistant"
      · simpa [listMessages, hideToolView, htool, hassist, regularRoles,
          stripToolCalls] using ihr
      · have hnone : m.tool_calls = none :=
          hcalls m (List.mem_cons_self m rest) hassist
        simpa [listMessages, hideToolView, htool, hassist, hr,
          stripToolCalls_eq_self hnone] using ihr

/-- Witness for C3 at a concrete thread. -/
theorem listMessages_hideToolMsgs_view_witness :
    listMessages [exUser, exAssistant, exToolMsg] true false true
      = hideToolView [exUser, exAssistant, exToolMsg] :=
  listMessages_hideToolMsgs_view _ (by decide) (by decide)

/-- C4, counterexample: on a thread holding one assistant message that
carries `tool_calls`, calling `list_messages` with both
`only_latest_assistant=true` and `hide_tool_msgs=true` does NOT return
what the hide-tool filter would make of the latest-assistant filter's
result: the source returns the assistant message as stored, with its
`tool_calls` still present. -/
theorem onlyLatest_ignores_hide_counterexample :
    listMessages [exAssistant] true true true
      ≠ hideToolView (listMessages [exAssistant] false true true) := by
  decide

/-- C4, amended: the filters do not compose; `only_latest_assistant`
short-circuits.  (a) When it is set, the values of `hide_tool_msgs` and
`regular_list` are ignored; (b) the result is the single most recent
assistant message exactly as stored — `tool_calls` not stripped. -/
theorem onlyLatest_shortCircuits :
    (∀ (msgs : List Message) (hide regular : Bool),
        listMessages msgs hide true regular = listMessages msgs false true true) ∧
      (∀ (msgs : List Message) (a : Message),
        msgs.reverse.find? (fun m => m.role == "assistant") = some a →
        listMessages msgs true true true = [a]) := by
  constructor
  · intro msgs hide regular
    rfl
  · intro msgs a hfind
    simp [listMessages, hfind]

/-- Witness for the amended C4 theorem at a concrete thread. -/
theorem onlyLatest_shortCircuits_witness :
    listMessages [exUser, exAssistant, exToolMsg] true true true = [exAssistant] :=
  onlyLatest_shortCircuits.2 [exUser, exAssistant, exToolMsg] exAssistant (by decide)

/-- C5, counterexample: a thread whose log is `[A, T, A, T]`, where the
two `A` entries are equal assistant messages each carrying one tool-call
request and the two `T` entries are the matching tool answers.  The most
recent tool-call-carrying assistant message (position 2) is followed by
exactly one tool-role message, matching its one request — the claim's
premise — yet the repair locates that message with Python's
`list.index`, which returns position 0, counts two tool answers against
one request, and reports that a cleanup was performed. -/
theorem cleanup_reports_true_on_duplicate :
    lastToolCallAssistantIdx [exAssistant, exToolMsg, exAssistant, exToolMsg]
        = some 2 ∧
      (([exAssistant, exToolMsg, exAssistant, exToolMsg].drop 3).filter
          (fun m => m.role == "tool")).length
        = (exAssistant.tool_calls.getD []).length ∧
      (cleanupIncompleteToolCalls
        ⟨[exAssistant, exToolMsg, exAssistant, exToolMsg],
         [exAssistant, exToolMsg, exAssistant, exToolMsg]⟩).2 = true := by
  exact ⟨rfl, rfl, rfl⟩

/-- C5, amended: on a thread (seen through the canonical-role view the
repair reads) whose most recent tool-call-carrying assistant message,
located at its first occurrence in the log — the repair finds the
position by value — is followed by as many tool-role messages as it has
tool-call requests, the repair changes nothing, reports that no cleanup
was performed, and running it twice is the same as running it once. -/
theorem cleanup_noop_of_balanced (st : ThreadState) (a : Message)
    (hfind : (listMessages st.active false false true).reverse.find?
        isToolCallAssistant = some a)
    (hbal : (((listMessages st.active false false true).drop
          ((listMessages st.active false false true).indexOf a + 1)).filter
            (fun m => m.role == "tool")).length
        = (a.tool_calls.getD []).length) :
    cleanupIncompleteToolCalls st = (st, false) ∧
      cleanupIncompleteToolCalls (cleanupIncompleteToolCalls st).1 = (st, false) := by
  have h1 : cleanupIncompleteToolCalls st = (st, false) := by
    unfold cleanupIncompleteToolCalls
    dsimp only
    rw [hfind]
    dsimp only
    rw [hbal.symm, if_pos (beq_self_eq_true _)]
  exact ⟨h1, by rw [h1]; exact h1⟩

/-- Witness for the amended C5 theorem at a concrete balanced thread. -/
theorem cleanup_noop_of_balanced_witness :
    cleanupIncompleteToolCalls ⟨[exAssistant, exToolMsg], [exAssistant, exToolMsg]⟩
      = (⟨[exAssistant, exToolMsg], [exAssistant, exToolMsg]⟩, false) :=
  (cleanup_noop_of_balanced _ exAssistant (by decide) (by decide)).1

/-! ## `run_thread` (C6)

`make_llm_api_call` (the completion transport) and
`LLMResponseProcessor` live outside the analysed sources; they enter the
embedding as the `completion` and `process` parameters.  A transport
fault is a `completion` returning `Except.error`; a raised Python
exception escaping `run_thread` itself is the outer `Except.error` of
the result. -/

/-- Outcome of `run_thread` as seen by its caller: the LLM response, or
the `{"status": "error", "message": ...}` record. -/
inductive RunReturn where
  | ok (response : String) : RunReturn
  | err (message : String) : RunReturn
deriving DecidableEq

/-- The "temporary fix" message appended when the log ends with an
assistant message. -/
def continueMessage : Message :=
  ⟨"user", "Continue! You must always use a tool.", none, none, none⟩

/-- The message list `run_thread` hands to the transport: the thread's
messages (default `list_messages` view), the temporary-fix user message
when the log ends with an assistant message, the system message in
front, and the optional temporary message at the back. -/
def preparedMessages (st : ThreadState) (system_message : Message)
    (temporary_message : Option Message) : List Message :=
  let messages := listMessages st.active false false true
  let messages :=
    match messages.getLast? with
    | some m => if m.role == "assistant" then messages ++ [continueMessage]
                else messages
    | none => messages
  let prepared := [system_message] ++ messages
  match temporary_message with
  | some t => prepared ++ [t]
  | none => prepared

/-- `ThreadManager.run_thread` (non-streaming shape).  The
native/XML-flag `ValueError` is raised before the `try` block, so it
propagates (outer `Except.error`); everything inside the `try` that
raises — in particular a transport fault — is caught and turned into the
tagged error record, with the thread state exactly as it was (the code
before the transport call only reads). -/
def runThread (st : ThreadState) (system_message : Message)
    (temporary_message : Option Message)
    (native_tool_calling xml_tool_calling : Bool)
    (completion : List Message → Except String String)
    (process : ThreadState → String → ThreadState) :
    Except String (ThreadState × RunReturn) :=
  if native_tool_calling && xml_tool_calling then
    Except.error
      "Cannot use both native LLM tool calling and XML tool calling simultaneously"
  else
    match completion (preparedMessages st system_message temporary_message) with
    | Except.error e => Except.ok (st, RunReturn.err e)
    | Except.ok r => Except.ok (process st r, RunReturn.ok r)

/-- C6: when the tool-calling flags are not both set and the transport
fails, `run_thread` returns normally (no exception escapes) with the
tagged error record carrying the failure message, and the thread state
is untouched. -/
theorem runThread_transport_error_tagged (st : ThreadState)
    (system_message : Message) (temporary_message : Option Message)
    (native_tool_calling xml_tool_calling : Bool)
    (completion : List Message → Except String String)
    (process : ThreadState → String → ThreadState) (e : String)
    (hflags : ¬(native_tool_calling = true ∧ xml_tool_calling = true))
    (hfail : completion (preparedMessages st system_message temporary_message)
        = Except.error e) :
    runThread st system_message temporary_message native_tool_calling
        xml_tool_calling completion process
      = Except.ok (st, RunReturn.err e) := by
  have hb : ¬((native_tool_calling && xml_tool_calling) = true) := by
    simpa [Bool.and_eq_true] using hflags
  unfold runThread
  rw [if_neg hb, hfail]

/-- A system message used by the concrete `run_thread` witness. -/
def exSystem : Message := ⟨"system", "be helpful", none, none, none⟩

/-- Witness for C6 at concrete inputs with a failing transport. -/
theorem runThread_transport_error_tagged_witness :
    runThread emptyThread exSystem none false false
        (fun _ => Except.error "connection refused") (fun s _ => s)
      = Except.ok (emptyThread, RunReturn.err "connection refused") :=
  runThread_transport_error_tagged emptyThread exSystem none false false
    (fun _ => Except.error "connection refused") (fun s _ => s)
    "connection refused" (by simp) rfl

/-! ## `modify_message` and `remove_message` (C7) -/

/-- C7, counterexample: with one stored message, index 1 (and index -1)
are out of range; both `modify_message` and `remove_message` return
normally — the source only logs — leaving the log unchanged, so a
mutating call can return without applying its change and without
raising. -/
theorem modify_remove_out_of_range_silent :
    modifyMessage ⟨[exUser], []⟩ 1 exAssistant = ⟨[exUser], []⟩ ∧
      removeMessage ⟨[exUser], []⟩ 1 = ⟨[exUser], []⟩ ∧
      modifyMessage ⟨[exUser], []⟩ (-1) exAssistant = ⟨[exUser], []⟩ := by
  exact ⟨rfl, rfl, rfl⟩

/-- C7, amended: for an in-range index, `modify_message` and
`remove_message` apply their change to the active log and persist it
before returning (the modified entry is stored at the index, lengths
change accordingly, the history log is untouched); an out-of-range
index, however, is silently ignored: the call returns normally with the
state unchanged and no error is signalled. -/
theorem modify_remove_in_range_applies (st : ThreadState) (i : Int)
    (m : Message) (h : 0 ≤ i ∧ i < (st.active.length : Int)) :
    (modifyMessage st i m).active = st.active.set i.toNat m ∧
      (modifyMessage st i m).active[i.toNat]? = some m ∧
      (modifyMessage st i m).active.length = st.active.length ∧
      (modifyMessage st i m).history = st.history ∧
      (removeMessage st i).active = st.active.eraseIdx i.toNat ∧
      (removeMessage st i).active.length = st.active.length - 1 ∧
      (removeMessage st i).history = st.history ∧
      (∀ j : Int, ¬(0 ≤ j ∧ j < (st.active.length : Int)) →
        modifyMessage st j m = st ∧ removeMessage st j = st) := by
  have hi : i.toNat < st.active.length := by omega
  refine ⟨?_, ?_, ?_, ?_, ?_, ?_, ?_, ?_⟩
  · simp [modifyMessage, h]
  · simp [modifyMessage, h, List.getElem?_set_eq_of_lt _ hi]
  · simp [modifyMessage, h]
  · simp [modifyMessage, h]
  · simp [removeMessage, h]
  · simp [removeMessage, h, List.length_eraseIdx, hi]
  · simp [removeMessage, h]
  · intro j hj
    exact ⟨by simp [modifyMessage, hj], by simp [removeMessage, hj]⟩

/-- Witness for the amended C7 theorem at concrete inputs. -/
theorem modify_remove_in_range_applies_witness :
    (modifyMessage ⟨[exUser, exToolMsg], [exUser]⟩ 0 exAssistant).active[0]?
        = some exAssistant ∧
      modifyMessage ⟨[exUser, exToolMsg], [exUser]⟩ 5 exAssistant
        = ⟨[exUser, exToolMsg], [exUser]⟩ :=
  ⟨(modify_remove_in_range_applies ⟨[exUser, exToolMsg], [exUser]⟩ 0 exAssistant
      (by decide)).2.1,
    ((modify_remove_in_range_applies ⟨[exUser, exToolMsg], [exUser]⟩ 0 exAssistant
      (by decide)).2.2.2.2.2.2.2 5 (by decide)).1⟩


/-! ## Capability results (`agentpress/tool.py` is not among the analysed
sources; its result type is modelled from the spec) -/

/-- Modelled from the spec: section 6's capability contract — "a result
tagged success/failure with a text payload" — and the Tool Outcome shape
of section 3; `agentpress.tool.ToolResult` itself is not under the
analysed sources. -/
structure ToolResult where
  success : Bool
  output : String
deriving DecidableEq

/-- Modelled from the spec: `Tool.success_response` wraps a text payload
as a success-tagged result. -/
def successResponse (msg : String) : ToolResult := ⟨true, msg⟩

/-- Modelled from the spec: `Tool.fail_response` wraps a text payload as
a failure-tagged result.  (`RepositoryTools.fail_response` additionally
schedules a fire-and-forget task recording the failure text in the
workspace; that unsequenced concurrent effect is outside this model.) -/
def failResponse (msg : String) : ToolResult := ⟨false, msg⟩

/-! ## `tools/bash_tool.py` (C8) -/

/-- Python's `\\s` / `str.strip` whitespace class (ASCII part; the
sources only ever strip ASCII output). -/
def isPyWhitespace (c : Char) : Bool :=
  c == ' ' || c == '\t' || c == '\n' || c == '\r' || c == '\x0b' || c == '\x0c'

/-- Python `str.strip()`: drop leading and trailing whitespace.
(Defined on the character list so that it evaluates inside the kernel;
`String.trim` does not reduce definitionally.) -/
def pyStrip (s : String) : String :=
  String.mk (((s.data.dropWhile isPyWhitespace).reverse.dropWhile
    isPyWhitespace).reverse)

/-- How the docker subprocess behind
`BashTool.execute_command_in_container` behaves: it completes with
stdout/stderr/exit-code, exceeds the `asyncio.wait_for` timeout, or the
spawn itself raises. -/
inductive SubprocessOutcome where
  | completes (stdout stderr : String) (returncode : Int) : SubprocessOutcome
  | timedOut : SubprocessOutcome
  | raises (message : String) : SubprocessOutcome
deriving DecidableEq

/-- `BashTool.execute_command_in_container`, given the subprocess
behaviour: on timeout the task is killed and the fixed triple
`('', 'Command execution timed out after 5 minutes', 1)` is returned
(the code's timeout constant is actually 120 seconds; the message text
is the source's).  The `raises` case propagates to the caller, so it is
handled by `bashCommand`'s `except` below and has no triple here. -/
def executeCommandInContainer : SubprocessOutcome → String × String × Int
  | .completes stdout stderr returncode => (stdout, stderr, returncode)
  | .timedOut => ("", "Command execution timed out after 5 minutes", 1)
  | .raises _ => ("", "", 0)

/-- The non-raising body of `bash_command`, shared by both completion
shapes: builds the explanatory output around the returned triple. -/
def viaTriple (command : String) (r : String × String × Int) : ToolResult :=
  let stdout := r.1
  let stderr := r.2.1
  let returncode := r.2.2
  let output := "\nCommand executed: `" ++ command ++ "`\n"
  if returncode == 0 then
    successResponse (output ++ ("<output>" ++
      (if pyStrip stdout == "" then "No output." else pyStrip stdout) ++
      "</output>"))
  else
    failResponse (output ++ ("<output>" ++ pyStrip stdout ++ "\n" ++
      pyStrip stderr ++ "</output>"))

/-- `BashTool.bash_command`: runs the command in the container; exit
code 0 becomes a success result carrying the (stripped) stdout, any
other exit code a failure result carrying stdout and stderr; an
exception raised under the `try` becomes a failure result describing the
error. -/
def bashCommand (command : String) (o : SubprocessOutcome) : ToolResult :=
  match o with
  | .raises e =>
      failResponse ("Command executed: `" ++ command ++
        "`\nError executing bash command: " ++ e)
  | _ => viaTriple command (executeCommandInContainer o)

/-- C8: a bash invocation whose subprocess exceeds the timeout returns
(rather than hangs or raises) a failure-tagged result whose output text
reports the timeout. -/
theorem bashCommand_timeout_fails (command : String) :
    (bashCommand command SubprocessOutcome.timedOut).success = false ∧
      (bashCommand command SubprocessOutcome.timedOut).output
        = "\nCommand executed: `" ++ command ++
            "`\n<output>\nCommand execution timed out after 5 minutes</output>" := by
  constructor
  · rfl
  · simp only [bashCommand, viaTriple, executeCommandInContainer,
      successResponse, failResponse, String.append_assoc]
    congr 2


/-! ## `tools/repo_tool.py`: `edit_file` (C9)

`StateManager` and the docker-backed `BashExecutor` are external to the
pure logic here: the workspace state is passed in as a `Workspace`
value, and the `cat` read / `cat >` write of the target file enter as
explicit result triples, with the list of contents actually piped to
the write collected as the function's second component. -/

/-- One entry of `workspace["last_terminal_session"]`. -/
structure TerminalEntry where
  command : String
  output : Option String
  success : Option Bool
deriving DecidableEq

/-- The slice of the `workspace` state dict that `edit_file` and
`run_bash` touch. -/
structure Workspace where
  open_files : List String
  last_terminal_session : List TerminalEntry
deriving DecidableEq

/-- A dynamically-typed Python value as the `replacements` argument may
arrive: a string, a list, a dict, or anything else. -/
inductive PyVal where
  | str (s : String) : PyVal
  | list (items : List PyVal) : PyVal
  | dict (entries : List (String × PyVal)) : PyVal
  | other : PyVal

/-- Python dict key lookup (`d[k]` / `k in d`). -/
def pyGet? (entries : List (String × PyVal)) (k : String) : Option PyVal :=
  (entries.find? (fun e => e.1 == k)).map (fun e => e.2)

/-- Python `pat in s` for strings: contiguous-substring test. -/
def containsSub (pat : List Char) : List Char → Bool
  | [] => pat.isPrefixOf []
  | c :: t => pat.isPrefixOf (c :: t) || containsSub pat t

/-- Worker for `pyReplace` (nonempty pattern), fuelled so that it
evaluates inside the kernel; one character or one match is consumed per
step, so fuel `l.length` suffices. -/
def pyReplaceAux (old repl : List Char) : Nat → List Char → List Char
  | 0, l => l
  | _ + 1, [] => []
  | fuel + 1, c :: t =>
    if old.isPrefixOf (c :: t) then
      repl ++ pyReplaceAux old repl fuel ((c :: t).drop old.length)
    else c :: pyReplaceAux old repl fuel t

/-- Python `s.replace(old, new)`: replace every non-overlapping
occurrence, left to right; an empty `old` inserts `new` at every gap. -/
def pyReplace (s old replacement : String) : String :=
  match old.data with
  | [] => String.mk (replacement.data ++
      (s.data.map (fun c => c :: replacement.data)).flatten)
  | _ => String.mk (pyReplaceAux old.data replacement.data s.data.length s.data)

/-- First index at which `pat` occurs in the list, if any. -/
def findSub (pat : List Char) : List Char → Option Nat
  | [] => if pat.isPrefixOf [] then some 0 else none
  | c :: t =>
    if pat.isPrefixOf (c :: t) then some 0
    else (findSub pat t).map (fun n => n + 1)

/-- Every index at which `pat` occurs in the list, ascending. -/
def allOccs (pat l : List Char) : List Nat :=
  (List.range (l.length + 1)).filter (fun i => pat.isPrefixOf (l.drop i))

/-- One attempt of `transform_string_to_dict`'s regex
`<old_string>(.*?)</old_string>\s*<new_string>(.*?)</new_string>` at the
very start of `s`: the lazy group tries each `</old_string>` position
from the nearest on (regex backtracking), then requires only whitespace
up to `<new_string>` and takes the nearest `</new_string>`.  Returns
the captured pair and the remainder after the match. -/
def matchPairAt (s : List Char) : Option ((String × String) × List Char) :=
  if "<old_string>".data.isPrefixOf s then
    let body := s.drop 12
    (allOccs "</old_string>".data body).findSome? (fun j =>
      let old := body.take j
      let rest := (body.drop (j + 13)).dropWhile isPyWhitespace
      if "<new_string>".data.isPrefixOf rest then
        let nb := rest.drop 12
        match findSub "</new_string>".data nb with
        | some k => some ((String.mk old, String.mk (nb.take k)), nb.drop (k + 13))
        | none => none
      else none)
  else none

/-- The `re.finditer` scan: try a match at each successive position,
continuing after the end of each match found. -/
def scanPairs : Nat → List Char → List (String × String)
  | 0, _ => []
  | _ + 1, [] => []
  | fuel + 1, s =>
    match matchPairAt s with
    | some (p, rest) => p :: scanPairs fuel rest
    | none => scanPairs fuel (s.drop 1)

/-- `transform_string_to_dict`, flattened to the list of
`(old_string, new_string)` pairs it collects (the source wraps this
list as `{"replacement": [...]}`). -/
def transformStringToDict (input_string : String) : List (String × String) :=
  scanPairs (input_string.data.length + 1) input_string.data

/-- The replacements-shape analysis at the top of `edit_file`: a dict
with a `replacement` key (list or single dict), a dict that is itself
one `{old_string, new_string}` pair, a raw list, or a raw string parsed
through `transform_string_to_dict` (whose result always carries the
`replacement` key, so that branch's error message is unreachable);
anything else is rejected. -/
def normalizeReplacements : PyVal → Except String (List PyVal)
  | .dict kvs =>
    match pyGet? kvs "replacement" with
    | some (.list l) => .ok l
    | some (.dict d) => .ok [.dict d]
    | some _ => .error "Invalid 'replacement' format in 'replacements'."
    | none =>
      if (pyGet? kvs "old_string").isSome && (pyGet? kvs "new_string").isSome then
        .ok [.dict kvs]
      else .error "Invalid replacements format."
  | .list l => .ok l
  | .str s =>
    .ok ((transformStringToDict s).map (fun p =>
      PyVal.dict [("old_string", .str p.1), ("new_string", .str p.2)]))
  | .other => .error "Invalid replacements format."

/-- The `# Apply replacements` loop of `edit_file`: validate each item,
require the (partially rewritten) content to contain `old_string`, and
fold `content.replace(old, new)` left to right. -/
def applyReplacements (content : String) : List PyVal → Except String String
  | [] => .ok content
  | rep :: rest =>
    match rep with
    | .dict kvs =>
      match pyGet? kvs "old_string", pyGet? kvs "new_string" with
      | some (.str old_string), some (.str new_string) =>
        if containsSub old_string.data content.data then
          applyReplacements (pyReplace content old_string new_string) rest
        else
          .error ("The string to replace '" ++ old_string ++
            "' was not found in the file. Please check your old_string: Indentation really matters! When editing a file, make sure to insert appropriate indentation before each line!")
      | some _, some _ => .error "Both 'old_string' and 'new_string' must be strings."
      | _, _ => .error "Invalid replacement format in one of the replacements."
    | _ => .error "Invalid replacement format in one of the replacements."

/-- `RepositoryTools.edit_file`.  Second component: the contents piped
into the single `cat > path` write, in order (empty when the write is
never reached). -/
def editFile (workspace : Workspace) (path : String) (replacements : PyVal)
    (readResult writeResult : String × String × Int) :
    ToolResult × List String :=
  if path ∈ workspace.open_files then
    if readResult.2.2 = 0 then
      let content := readResult.1
      match normalizeReplacements replacements with
      | .error msg => (failResponse msg, [])
      | .ok replacements_list =>
        if replacements_list.isEmpty then
          (failResponse "No valid replacements provided.", [])
        else
          match applyReplacements content replacements_list with
          | .error msg => (failResponse msg, [])
          | .ok updated =>
            if writeResult.2.2 = 0 then
              (successResponse ("File " ++ path ++ " edited successfully."),
                [updated])
            else
              (failResponse ("Failed to write to file " ++ path ++ ": " ++
                pyStrip writeResult.2.1), [updated])
    else
      (failResponse ("Failed to read file " ++ path ++ ": " ++
        pyStrip readResult.2.1), [])
  else
    (failResponse ("File " ++ path ++
      " is not open. Please open the file before editing."), [])


/-- C9: `edit_file` is atomic with respect to the target file.  The
write effect list never holds more than one write; a file that is not
open, a malformed `replacements` argument (normalization error or empty
result), and a replacement whose `old_string` is missing from the
partially rewritten content each produce a failure result with no write
at all; and whenever a write happens, its content is exactly the result
of folding every replacement, in order, over the content read (each step
replacing all occurrences). -/
theorem editFile_atomic (workspace : Workspace) (path : String)
    (replacements : PyVal) (readResult writeResult : String × String × Int) :
    (editFile workspace path replacements readResult writeResult).2.length ≤ 1 ∧
      (path ∉ workspace.open_files →
        (editFile workspace path replacements readResult writeResult).1.success = false ∧
          (editFile workspace path replacements readResult writeResult).2 = []) ∧
      (∀ msg, normalizeReplacements replacements = Except.error msg →
        (editFile workspace path replacements readResult writeResult).1.success = false ∧
          (editFile workspace path replacements readResult writeResult).2 = []) ∧
      (normalizeReplacements replacements = Except.ok [] →
        (editFile workspace path replacements readResult writeResult).1.success = false ∧
          (editFile workspace path replacements readResult writeResult).2 = []) ∧
      (∀ l msg, normalizeReplacements replacements = Except.ok l →
        applyReplacements readResult.1 l = Except.error msg →
        (editFile workspace path replacements readResult writeResult).1.success = false ∧
          (editFile workspace path replacements readResult writeResult).2 = []) ∧
      (∀ c, (editFile workspace path replacements readResult writeResult).2 = [c] →
        ∃ l, normalizeReplacements replacements = Except.ok l ∧ l ≠ [] ∧
          applyReplacements readResult.1 l = Except.ok c) := by
  refine ⟨?_, ?_, ?_, ?_, ?_, ?_⟩
  · unfold editFile
    dsimp only
    repeat' split
    all_goals simp
  · intro h
    simp [editFile, h, failResponse]
  · intro msg hmsg
    by_cases hopen : path ∈ workspace.open_files
    · by_cases hrc : readResult.2.2 = 0
      · simp [editFile, hopen, hrc, hmsg, failResponse]
      · simp [editFile, hopen, hrc, failResponse]
    · simp [editFile, hopen, failResponse]
  · intro hnil
    by_cases hopen : path ∈ workspace.open_files
    · by_cases hrc : readResult.2.2 = 0
      · simp [editFile, hopen, hrc, hnil, failResponse]
      · simp [editFile, hopen, hrc, failResponse]
    · simp [editFile, hopen, failResponse]
  · intro l msg hnorm happ
    by_cases hopen : path ∈ workspace.open_files
    · by_cases hrc : readResult.2.2 = 0
      · cases l with
        | nil => simp [editFile, hopen, hrc, hnorm, failResponse]
        | cons a as => simp [editFile, hopen, hrc, hnorm, happ, failResponse]
      · simp [editFile, hopen, hrc, failResponse]
    · simp [editFile, hopen, failResponse]
  · intro c hc
    unfold editFile at hc
    dsimp only at hc
    by_cases hopen : path ∈ workspace.open_files
    · by_cases hrc : readResult.2.2 = 0
      · cases hnorm : normalizeReplacements replacements with
        | error msg => simp [hopen, hrc, hnorm] at hc
        | ok l =>
          cases l with
          | nil => simp [hopen, hrc, hnorm] at hc
          | cons a as =>
            cases happ : applyReplacements readResult.1 (a :: as) with
            | error m => simp [hopen, hrc, hnorm, happ] at hc
            | ok updated =>
              have hcc : updated = c := by
                by_cases hw : writeResult.2.2 = 0 <;>
                  simpa [hopen, hrc, hnorm, happ, hw, successResponse,
                    failResponse] using hc
              exact ⟨a :: as, rfl, by simp, by rw [happ, hcc]⟩
      · simp [hopen, hrc] at hc
    · simp [hopen] at hc

/-- Workspace fixture with one open file. -/
def exWorkspace : Workspace := ⟨["/f"], []⟩

/-- A well-formed `replacements` list with one pair. -/
def exReplacements : PyVal :=
  PyVal.list [PyVal.dict [("old_string", PyVal.str "a"), ("new_string", PyVal.str "b")]]

/-- Witness for C9: a concrete successful edit writes exactly the folded
content. -/
theorem editFile_atomic_witness :
    ∃ l, normalizeReplacements exReplacements = Except.ok l ∧ l ≠ [] ∧
      applyReplacements "abca" l = Except.ok "bbcb" :=
  (editFile_atomic exWorkspace "/f" exReplacements ("abca", "", 0)
    ("", "", 0)).2.2.2.2.2 "bbcb" (by rfl)


/-! ## `tools/repo_tool.py`: `run_bash` (C10) -/

/-- `RepositoryTools._update_terminal`: append the
`{command, output, success}` entry to `workspace["last_terminal_session"]`
and store the workspace. -/
def updateTerminal (workspace : Workspace) (command : String)
    (output : Option String) (success : Option Bool) : Workspace :=
  { workspace with
    last_terminal_session :=
      workspace.last_terminal_session ++ [⟨command, output, success⟩] }

/-- Output truncation bounds of `_execute_command`. -/
def MAX_OUTPUT : Nat := 15000
def KEEP_HEAD : Nat := 5000
def KEEP_TAIL : Nat := 10000

/-- How the `try` body of `_execute_command` goes: the executor returns
its triple (it catches its own subprocess errors internally), or
something inside the `try` — e.g. the state-manager round trip — raises. -/
inductive ExecOutcome where
  | completes (stdout stderr : String) (returncode : Int) : ExecOutcome
  | raises (message : String) : ExecOutcome

/-- `RepositoryTools.run_bash`, i.e. `_execute_command`: record the
command with its truncated combined output and `success = (returncode
== 0)` in the terminal session, then return a SUCCESS-tagged result
regardless of the exit code; only an exception produces a failure tag
(and then the workspace update never happened). -/
def runBash (workspace : Workspace) (command : String) (o : ExecOutcome) :
    Workspace × ToolResult :=
  match o with
  | .raises e =>
    (workspace, failResponse ("Error executing command: " ++ e))
  | .completes stdout stderr returncode =>
    let success := returncode == 0
    let combined := stdout ++ stderr
    let combined :=
      if combined = "" then
        "Command completed successfully but produced no output"
      else combined
    let truncated :=
      if combined.length > MAX_OUTPUT then
        (combined.take KEEP_HEAD ++ "\n\n...LENGTHY OUTPUT TRUNCATED...\n\n")
          ++ combined.drop (combined.length - KEEP_TAIL)
      else combined
    (updateTerminal workspace command (some truncated) (some success),
      successResponse ("Command executed:\n" ++ truncated))

/-- C10: whenever the command execution completes, `run_bash` returns a
success-tagged result — also for a nonzero exit code, whose effect is
confined to the `success` flag of the new `last_terminal_session` entry —
and a failure-tagged result arises only from an exception, which leaves
the workspace untouched. -/
theorem runBash_success_tagging (workspace : Workspace) (command : String) :
    (∀ stdout stderr returncode,
      (runBash workspace command (.completes stdout stderr returncode)).2.success
          = true ∧
        ∃ out,
          (runBash workspace command
              (.completes stdout stderr returncode)).1.last_terminal_session
            = workspace.last_terminal_session ++
                [⟨command, some out, some (returncode == 0)⟩]) ∧
      (∀ e, (runBash workspace command (.raises e)).2.success = false ∧
        (runBash workspace command (.raises e)).1 = workspace) := by
  constructor
  · intro stdout stderr returncode
    constructor
    · rfl
    · exact ⟨_, rfl⟩
  · intro e
    exact ⟨rfl, rfl⟩

end AgentPress
